import Mathlib

/-!
Verification of the Caprio Fashion backend (src/server.js, src/db.js).

The development shallowly embeds the request handlers and their SQLite
semantics: rows are Lean structures mirroring the schema in init-db.sql,
the product listing handler becomes a filter-and-sort function whose
filter mirrors the WHERE clauses it generates, and the auth middleware
chain becomes explicit functions on an optional Authorization header.
-/

/-! ## SQLite LIKE semantics

The listing handler generates conditions of the form
name LIKE ? with parameter wrapped in percent signs.  SQLite LIKE is
case-insensitive for the ASCII range only, the percent sign matches any
(possibly empty) character sequence and the underscore matches exactly
one character. -/

/-- ASCII-only case folding, as used by the default SQLite LIKE. -/
def foldChar (c : Char) : Char :=
  if 'A' ≤ c ∧ c ≤ 'Z' then Char.ofNat (c.toNat + 32) else c

/-- Does f hold of some tail (including the whole list and the empty tail)? -/
def anyTail (f : List Char → Bool) : List Char → Bool
  | [] => f []
  | c :: s => f (c :: s) || anyTail f s

/-- SQLite LIKE pattern matching over character lists: percent matches any
sequence, underscore matches one character, other characters compare after
ASCII case folding. -/
def likeMatch : List Char → List Char → Bool
  | [], s => s.isEmpty
  | c :: ps, s =>
    if c = '%' then anyTail (likeMatch ps) s
    else
      match s with
      | [] => false
      | d :: s' => (c == '_' || foldChar c == foldChar d) && likeMatch ps s'

/-- SQLite LIKE on strings: likeMatch on the underlying character lists. -/
def sqliteLike (pattern s : String) : Bool :=
  likeMatch pattern.data s.data

/-- Exact list-level starts-with test. -/
def isPrefixL : List Char → List Char → Bool
  | [], _ => true
  | _ :: _, [] => false
  | c :: q, d :: s => c == d && isPrefixL q s

/-- q occurs as a contiguous sublist of s. -/
def occursIn (q s : List Char) : Bool :=
  anyTail (fun t => isPrefixL q t) s

/-- ASCII-case-insensitive substring containment on strings. -/
def containsCI (q s : String) : Bool :=
  occursIn (q.data.map foldChar) (s.data.map foldChar)

/-- The string has no SQLite LIKE wildcard (no percent sign, no underscore). -/
def noWildS (s : String) : Bool :=
  s.data.all (fun c => !(c == '%' || c == '_'))

/-! ## Product rows and the listing handler

Mirrors the products table of init-db.sql; name is NOT NULL, the other
text columns are nullable.  REAL columns are modelled by rationals and
DATETIME by integers. -/

structure ProductRow where
  id : Nat
  name : String
  slug : Option String
  description : Option String
  price : Rat
  rating : Rat
  reviews : Nat
  colors : Option String
  images : Option String
  category : Option String
  age_group : Option String
  created_at : Int
deriving DecidableEq, Repr

/-- JavaScript truthiness of an optional query-string value: present and
non-empty.  Mirrors the if (category) style guards of the listing handler. -/
def present (o : Option String) : Bool :=
  !(o.getD "" == "")

/-- The WHERE clause produced by the listing handler, as a row predicate:
category and age_group are exact matches (a NULL column never matches), and
q matches when name LIKE percent-q-percent OR description LIKE the same
pattern; a NULL description makes that disjunct SQL-NULL, hence false. -/
def rowMatches (category age_group q : Option String) (r : ProductRow) : Bool :=
  (if present category then r.category == category else true) &&
  (if present age_group then r.age_group == age_group else true) &&
  (if present q then
      (sqliteLike ("%" ++ q.getD "" ++ "%") r.name ||
        (match r.description with
          | some d => sqliteLike ("%" ++ q.getD "" ++ "%") d
          | none => false))
    else true)

/-- The four ORDER BY outcomes of the listing handler. -/
inductive SortKey where
  | priceAsc
  | priceDesc
  | newest
  | byIdDesc
deriving DecidableEq, Repr

/-- The if-else chain on the sort query value: three recognized keywords,
everything else (including absence) falls through to ORDER BY id DESC. -/
def sortKeyOf (sort : Option String) : SortKey :=
  if sort == some "price_asc" then .priceAsc
  else if sort == some "price_desc" then .priceDesc
  else if sort == some "newest" then .newest
  else .byIdDesc

/-- Row comparison realizing each ORDER BY clause. -/
def sortLE (sort : Option String) (a b : ProductRow) : Bool :=
  match sortKeyOf sort with
  | .priceAsc => decide (a.price ≤ b.price)
  | .priceDesc => decide (b.price ≤ a.price)
  | .newest => decide (b.created_at ≤ a.created_at)
  | .byIdDesc => decide (b.id ≤ a.id)

/-- The GET /api/products handler: SELECT * FROM products with the generated
WHERE conditions and ORDER BY clause, over a table db of product rows. -/
def listProducts (db : List ProductRow) (category age_group q sort : Option String) :
    List ProductRow :=
  (db.filter (rowMatches category age_group q)).mergeSort (sortLE sort)

/-- ORDER BY text for each sort outcome, as appended to the query. -/
def orderClause (k : SortKey) : String :=
  match k with
  | .priceAsc => " ORDER BY price ASC"
  | .priceDesc => " ORDER BY price DESC"
  | .newest => " ORDER BY created_at DESC"
  | .byIdDesc => " ORDER BY id DESC"

/-- The query text and bound parameter list built by the listing handler:
condition fragments and parameters are pushed for each present filter
(category, then age_group, then q twice with percent wrapping), joined with
AND, and the ORDER BY clause is appended. -/
def buildProductsQuery (category age_group q sort : Option String) :
    String × List String :=
  let conditions :=
    (if present category then ["category = ?"] else []) ++
    (if present age_group then ["age_group = ?"] else []) ++
    (if present q then ["(name LIKE ? OR description LIKE ?)"] else [])
  let params :=
    (if present category then [category.getD ""] else []) ++
    (if present age_group then [age_group.getD ""] else []) ++
    (if present q then ["%" ++ q.getD "" ++ "%", "%" ++ q.getD "" ++ "%"] else [])
  let sql := "SELECT * FROM products" ++
    (if conditions.isEmpty then "" else " WHERE " ++ String.intercalate " AND " conditions) ++
    orderClause (sortKeyOf sort)
  (sql, params)

/-! ## Tokens and the middleware chain

jsonwebtoken is modelled by a transparent signed-token structure: signing
records the payload, the signing secret and the expiry instant; verifying
an encoded token string goes through an abstract decode function (none for
a malformed string) and then checks the signature against the configured
secret and the expiry against the current time. -/

/-- Claims carried by a token: user id, email, admin flag (an INTEGER column
in the users table, so a natural number with 0 meaning non-admin). -/
structure Claims where
  id : Nat
  email : String
  is_admin : Nat
deriving DecidableEq, Repr

structure SignedToken where
  payload : Claims
  sig : String
  exp : Int
deriving DecidableEq, Repr

/-- jwt.sign with expiresIn of 7 days (604800 seconds past now). -/
def jwtSign (payload : Claims) (secret : String) (now : Int) : SignedToken :=
  { payload := payload, sig := secret, exp := now + 604800 }

/-- jwt.verify: decode the token string (none models a malformed token),
then require the signature to match the secret and the expiry to lie in the
future; any failure yields none, which the middleware turns into 401. -/
def jwtVerify (decode : String → Option SignedToken) (secret : String) (now : Int)
    (tok : String) : Option Claims :=
  match decode tok with
  | none => none
  | some t => if t.sig == secret && decide (now < t.exp) then some t.payload else none

structure HttpResponse where
  status : Nat
  message : String
deriving DecidableEq, Repr

def unauthorizedResp : HttpResponse := { status := 401, message := "Unauthorized" }
def invalidTokenResp : HttpResponse := { status := 401, message := "Invalid token" }
def forbiddenResp : HttpResponse := { status := 403, message := "Admin only" }

/-- JavaScript split on a single character: every separator occurrence cuts,
adjacent separators produce empty fragments. -/
def splitOnChar (sep : Char) : List Char → List (List Char)
  | [] => [[]]
  | c :: rest =>
    if c = sep then [] :: splitOnChar sep rest
    else
      match splitOnChar sep rest with
      | [] => [[c]]
      | h :: t => (c :: h) :: t

/-- The auth header check of authMiddleware: the header value must start
with the literal Bearer-plus-space prefix. -/
def startsWithBearer (s : String) : Bool :=
  isPrefixL "Bearer ".data s.data

/-- The token substring extracted by authMiddleware: index 1 of the header
split on spaces. -/
def headerToken (s : String) : String :=
  String.mk ((splitOnChar ' ' s.data).getD 1 [])

/-- authMiddleware: a missing header or one without the Bearer prefix is
rejected 401 Unauthorized; a token that fails verification is rejected 401
Invalid token; otherwise the verified claims are passed on. -/
def authMiddleware (decode : String → Option SignedToken) (secret : String) (now : Int)
    (auth : Option String) : Except HttpResponse Claims :=
  match auth with
  | none => .error unauthorizedResp
  | some a =>
    if startsWithBearer a then
      match jwtVerify decode secret now (headerToken a) with
      | some payload => .ok payload
      | none => .error invalidTokenResp
    else .error unauthorizedResp

/-- adminMiddleware: claims whose admin flag is falsy (the integer 0) are
rejected 403 Admin only. -/
def adminMiddleware (c : Claims) : Except HttpResponse Claims :=
  if c.is_admin == 0 then .error forbiddenResp else .ok c

/-- A route protected by authMiddleware alone: the handler runs only on the
claims yielded by a successful check. -/
def runProtected (decode : String → Option SignedToken) (secret : String) (now : Int)
    (handler : Claims → HttpResponse) (auth : Option String) : HttpResponse :=
  match authMiddleware decode secret now auth with
  | .error e => e
  | .ok c => handler c

/-- A route protected by authMiddleware then adminMiddleware, as are
POST/PUT/DELETE /api/admin/products and POST /api/admin/seed-demo. -/
def runAdminProtected (decode : String → Option SignedToken) (secret : String) (now : Int)
    (handler : Claims → HttpResponse) (auth : Option String) : HttpResponse :=
  match authMiddleware decode secret now auth with
  | .error e => e
  | .ok c =>
    match adminMiddleware c with
    | .error e => e
    | .ok c' => handler c'

/-! ## Database state and the account and wishlist handlers -/

/-- A row of the users table. -/
structure UserRow where
  id : Nat
  name : String
  email : String
  password : String
  is_admin : Nat
deriving DecidableEq, Repr

/-- A row of the wishlists table; product_id is nullable (a wishlist add
with a missing body field binds NULL). -/
structure WishRow where
  id : Nat
  user_id : Nat
  product_id : Option Nat
deriving DecidableEq, Repr

/-- The single SQLite database: the three tables plus the AUTOINCREMENT
counters for users and wishlists. -/
structure DBState where
  users : List UserRow
  products : List ProductRow
  wishlists : List WishRow
  nextUserId : Nat
  nextWishId : Nat
deriving DecidableEq, Repr

/-- bcrypt.hash modelled as an injective tagging of the plaintext; the
development only relies on a hash matching exactly the plaintext it was
derived from. -/
def bcryptHash (pw : String) : String :=
  "bcrypt2b10$" ++ pw

/-- bcrypt.compare on a present plaintext: re-derive and compare. -/
def bcryptCompare (pw h : String) : Bool :=
  h == bcryptHash pw

/-- bcrypt.compare as called by the login handler, where the data argument
comes straight from the request body and may be absent: the bcrypt library
rejects a missing data argument with an error rather than returning false. -/
def bcryptCompareJS (data : Option String) (h : String) : Except String Bool :=
  match data with
  | none => .error "data and hash arguments required"
  | some pw => .ok (bcryptCompare pw h)

/-- SELECT from users by the optional email taken from a request body; a
missing body field binds NULL, which matches no row. -/
def findUserByEmail (users : List UserRow) (email : Option String) : Option UserRow :=
  match email with
  | none => none
  | some e => users.find? (fun u => u.email == e)

/-- Registration request body; is_admin stands for any extra field a caller
may send: the handler destructures only name, email and password. -/
structure RegisterBody where
  name : Option String
  email : Option String
  password : Option String
  is_admin : Option Nat
deriving Repr

/-- Outcome of the register and login handlers. -/
inductive AuthResp where
  | ok (token : SignedToken)
  | err (status : Nat) (message : String)
deriving DecidableEq, Repr

/-- POST /api/register: reject a missing or empty email or password with
400; reject an already registered email with 400; otherwise insert the row
(is_admin takes its column default 0) and sign a token with admin flag 0. -/
def register (secret : String) (now : Int) (st : DBState) (b : RegisterBody) :
    AuthResp × DBState :=
  if !present b.email || !present b.password then
    (.err 400 "Email and password required", st)
  else
    match findUserByEmail st.users b.email with
    | some _ => (.err 400 "Email already registered", st)
    | none =>
      let row : UserRow :=
        { id := st.nextUserId, name := b.name.getD "", email := b.email.getD "",
          password := bcryptHash (b.password.getD ""), is_admin := 0 }
      let token := jwtSign { id := st.nextUserId, email := b.email.getD "", is_admin := 0 } secret now
      (.ok token, { st with users := st.users ++ [row], nextUserId := st.nextUserId + 1 })

structure LoginBody where
  email : Option String
  password : Option String
deriving Repr

/-- POST /api/login: unknown email is 400; a bcrypt error (missing password
in the body) is caught and mapped to 500; a failed comparison is 400; a
successful one signs a token with the stored admin flag. -/
def login (secret : String) (now : Int) (st : DBState) (b : LoginBody) : AuthResp :=
  match findUserByEmail st.users b.email with
  | none => .err 400 "Invalid email/password"
  | some u =>
    match bcryptCompareJS b.password u.password with
    | .error _ => .err 500 "Server error"
    | .ok ok =>
      if ok then
        .ok (jwtSign { id := u.id, email := u.email, is_admin := u.is_admin } secret now)
      else .err 400 "Invalid email/password"

/-- Wishlist add request body; user_id stands for any identity field a
caller may send: the handler reads only product_id from the body and takes
the user id from the verified claims. -/
structure WishAddBody where
  product_id : Option Nat
  user_id : Option Nat
deriving Repr

structure WlResp where
  success : Bool
deriving DecidableEq, Repr

/-- INSERT OR IGNORE into wishlists under UNIQUE(user_id, product_id): a
duplicate pair is ignored; a NULL product_id never collides (SQL UNIQUE
treats NULLs as distinct) and always inserts. -/
def insertOrIgnoreWish (st : DBState) (uid : Nat) : Option Nat → DBState
  | some p =>
    if st.wishlists.any (fun w => w.user_id == uid && w.product_id == some p) then st
    else
      { st with
        wishlists := st.wishlists ++ [{ id := st.nextWishId, user_id := uid, product_id := some p }],
        nextWishId := st.nextWishId + 1 }
  | none =>
    { st with
      wishlists := st.wishlists ++ [{ id := st.nextWishId, user_id := uid, product_id := none }],
      nextWishId := st.nextWishId + 1 }

/-- POST /api/wishlist: insert-or-ignore (claims id, body product_id),
always answering success. -/
def addWishlist (st : DBState) (c : Claims) (b : WishAddBody) : WlResp × DBState :=
  ({ success := true }, insertOrIgnoreWish st c.id b.product_id)

/-- DELETE /api/wishlist/:product_id: delete the caller's rows for that
product id; rows of other users, and rows with NULL product_id, survive. -/
def removeWishlist (st : DBState) (c : Claims) (pid : Nat) : WlResp × DBState :=
  ({ success := true },
    { st with
      wishlists := st.wishlists.filter (fun w => !(w.user_id == c.id && w.product_id == some pid)) })

/-- A row of the wishlist listing JOIN. -/
structure WishOutRow where
  id : Nat
  product_id : Nat
  name : String
  price : Rat
  images : Option String
deriving DecidableEq, Repr

/-- GET /api/wishlist: the caller's wishlist rows inner-joined with the
products table on product id. -/
def listWishlist (st : DBState) (c : Claims) : List WishOutRow :=
  (st.wishlists.filter (fun w => w.user_id == c.id)).filterMap (fun w =>
    match w.product_id with
    | none => none
    | some p =>
      match st.products.find? (fun pr => pr.id == p) with
      | none => none
      | some pr =>
        some { id := w.id, product_id := p, name := pr.name, price := pr.price, images := pr.images })

/-! ## Concrete sample data used by witnesses and counterexamples -/

/-- A product whose name has no underscore, used to separate LIKE matching
from substring containment. -/
def pAbc : ProductRow :=
  { id := 1, name := "abc", slug := none, description := none, price := 10,
    rating := 0, reviews := 0, colors := none, images := none,
    category := none, age_group := none, created_at := 0 }

/-- A seeded hoodie row. -/
def pHood : ProductRow :=
  { id := 2, name := "Everest Adventure Hoodie", slug := some "everest-adventure-hoodie",
    description := some "Cozy hoodie built for play.", price := 45,
    rating := 0, reviews := 0, colors := none, images := none,
    category := some "Hoodies & Sweatshirts", age_group := some "Big Kid", created_at := 5 }

/-- A seeded tee row. -/
def pTee : ProductRow :=
  { id := 3, name := "Cosmic Explorer Tee", slug := some "cosmic-explorer-tee",
    description := some "Glow-in-the-dark organic tee.", price := 28,
    rating := 0, reviews := 0, colors := none, images := none,
    category := some "Graphic Tees", age_group := some "Little Kid", created_at := 9 }

def dbW : List ProductRow := [pHood, pTee]

def claimsW : Claims := { id := 1, email := "alice@x.com", is_admin := 0 }

def tokW : SignedToken := jwtSign claimsW "sec" 0

/-- Concrete decoder recognizing exactly one encoded token string. -/
def decodeW (s : String) : Option SignedToken :=
  if s == "tok" then some tokW else none

def aliceRow : UserRow :=
  { id := 1, name := "Alice", email := "alice@x.com",
    password := bcryptHash "pw123456", is_admin := 0 }

def stEmpty : DBState :=
  { users := [], products := [], wishlists := [], nextUserId := 1, nextWishId := 1 }

def stAlice : DBState :=
  { users := [aliceRow], products := [pHood, pTee], wishlists := [], nextUserId := 2, nextWishId := 1 }

def bodyBob : RegisterBody :=
  { name := none, email := some "bob@x.com", password := some "pw12", is_admin := some 1 }

def bodyBob2 : RegisterBody :=
  { name := some "Bobby", email := some "bob@x.com", password := some "other", is_admin := none }

def rowBob : UserRow :=
  { id := 1, name := "", email := "bob@x.com", password := bcryptHash "pw12", is_admin := 0 }

def tokBob : SignedToken :=
  jwtSign { id := 1, email := "bob@x.com", is_admin := 0 } "sec" 0

def stBob : DBState :=
  { users := [rowBob], products := [], wishlists := [], nextUserId := 2, nextWishId := 1 }

/-- The token carried by a handler outcome, if any. -/
def issuedToken : AuthResp → Option SignedToken
  | .ok t => some t
  | .err _ _ => none

/-! ## Lemmas about LIKE patterns -/

theorem anyTail_eq_true_iff (f : List Char → Bool) (s : List Char) :
    anyTail f s = true ↔ ∃ n, f (s.drop n) = true := by
  induction s with
  | nil =>
    simp only [anyTail, List.drop_nil]
    exact ⟨fun h => ⟨0, h⟩, fun ⟨_, h⟩ => h⟩
  | cons c s ih =>
    simp only [anyTail, Bool.or_eq_true, ih]
    constructor
    · rintro (h | ⟨n, h⟩)
      · exact ⟨0, h⟩
      · exact ⟨n + 1, by simpa using h⟩
    · rintro ⟨n, h⟩
      cases n with
      | zero => exact .inl h
      | succ n => exact .inr ⟨n, by simpa using h⟩

theorem likeMatch_lit_percent (q : List Char)
    (hq : q.all (fun c => !(c == '%' || c == '_')) = true) (s : List Char) :
    likeMatch (q ++ ['%']) s = isPrefixL (q.map foldChar) (s.map foldChar) := by
  induction q generalizing s with
  | nil =>
    simp only [List.nil_append, List.map_nil, isPrefixL]
    rw [show likeMatch ['%'] s = anyTail (likeMatch []) s by simp [likeMatch]]
    exact (anyTail_eq_true_iff _ s).mpr ⟨s.length, by simp [likeMatch, List.drop_length]⟩
  | cons a q ih =>
    simp only [List.all_cons, Bool.and_eq_true, Bool.not_eq_true', Bool.or_eq_false_iff,
      beq_eq_false_iff_ne, ne_eq] at hq
    obtain ⟨⟨ha1, ha2⟩, hq⟩ := hq
    have h2 : (a == '_') = false := beq_eq_false_iff_ne.mpr ha2
    cases s with
    | nil =>
      simp [likeMatch, ha1, isPrefixL]
    | cons d s' =>
      simp [likeMatch, ha1, h2, isPrefixL, ih hq]

theorem likeMatch_wrap_iff (qs s : String) (hq : noWildS qs = true) :
    sqliteLike ("%" ++ qs ++ "%") s = true ↔ containsCI qs s = true := by
  have hdata : ("%" ++ qs ++ "%").data = '%' :: (qs.data ++ ['%']) := by
    simp [String.data_append]
  unfold sqliteLike containsCI occursIn
  rw [hdata]
  rw [show likeMatch ('%' :: (qs.data ++ ['%'])) s.data
        = anyTail (likeMatch (qs.data ++ ['%'])) s.data by simp [likeMatch]]
  rw [anyTail_eq_true_iff, anyTail_eq_true_iff]
  unfold noWildS at hq
  constructor
  · rintro ⟨n, h⟩
    rw [likeMatch_lit_percent qs.data hq] at h
    rw [List.map_drop] at h
    exact ⟨n, h⟩
  · rintro ⟨n, h⟩
    refine ⟨n, ?_⟩
    rw [likeMatch_lit_percent qs.data hq, List.map_drop]
    exact h

/-- Membership in the listing output: the row is in the table and passes the
generated WHERE conditions. -/
theorem mem_listProducts {r : ProductRow} {db : List ProductRow}
    {category age_group q sort : Option String} :
    r ∈ listProducts db category age_group q sort ↔
      r ∈ db ∧ rowMatches category age_group q r = true := by
  unfold listProducts
  rw [List.mem_mergeSort, List.mem_filter]

/-! ## Claim theorems -/

/-- C1: the SQL text of the product listing query never embeds a filter
value: the text is a function of which filters are present and of the
recognized sort keyword only, and the filter values (category, age_group
and the two wildcard-wrapped copies of q) appear exactly in the bound
parameter list, in push order. -/
theorem products_query_text_value_independent
    (c1 a1 q1 s1 c2 a2 q2 s2 : Option String)
    (hc : present c1 = present c2) (ha : present a1 = present a2)
    (hq : present q1 = present q2) (hs : sortKeyOf s1 = sortKeyOf s2) :
    (buildProductsQuery c1 a1 q1 s1).1 = (buildProductsQuery c2 a2 q2 s2).1 ∧
    (buildProductsQuery c1 a1 q1 s1).2 =
      (if present c1 then [c1.getD ""] else []) ++
      (if present a1 then [a1.getD ""] else []) ++
      (if present q1 then ["%" ++ q1.getD "" ++ "%", "%" ++ q1.getD "" ++ "%"] else []) := by
  constructor
  · simp only [buildProductsQuery, hc, ha, hq, hs]
  · rfl

/-- C1 witness: two listings with the same presence pattern and sort produce
the same query text at distinct filter values. -/
theorem products_query_text_value_independent_witness :
    (buildProductsQuery (some "Hoodies & Sweatshirts") none (some "hood") (some "price_asc")).1 =
      (buildProductsQuery (some "x") none (some "zzz") (some "price_asc")).1 :=
  (products_query_text_value_independent
    (some "Hoodies & Sweatshirts") none (some "hood") (some "price_asc")
    (some "x") none (some "zzz") (some "price_asc")
    (by decide) rfl (by decide) rfl).1

/-- C2: any valid token whose claims carry a non-admin flag is stopped by
the admin gate with 403, whatever the handler behind the gate does; this
covers all admin-gated routes, which share the same middleware chain. -/
theorem admin_gate_blocks_non_admin
    (decode : String → Option SignedToken) (secret : String) (now : Int)
    (auth : Option String) (c : Claims)
    (hok : authMiddleware decode secret now auth = .ok c) (hna : c.is_admin = 0) :
    forbiddenResp.status = 403 ∧
    ∀ handler : Claims → HttpResponse,
      runAdminProtected decode secret now handler auth = forbiddenResp := by
  refine ⟨rfl, fun handler => ?_⟩
  unfold runAdminProtected
  rw [hok]
  simp [adminMiddleware, hna]

/-- C2 witness: a concrete valid non-admin token is rejected 403. -/
theorem admin_gate_blocks_non_admin_witness :
    runAdminProtected decodeW "sec" 0 (fun _ => { status := 200, message := "ok" })
      (some "Bearer tok") = forbiddenResp :=
  (admin_gate_blocks_non_admin decodeW "sec" 0 (some "Bearer tok") claimsW rfl rfl).2 _

/-- C6: requests without an Authorization header, with one lacking the
Bearer prefix, or with a token failing verification are all rejected 401
regardless of the handler; a valid token runs the handler on the verified
claims. -/
theorem auth_gate_spec (decode : String → Option SignedToken) (secret : String) (now : Int)
    (handler : Claims → HttpResponse) :
    unauthorizedResp.status = 401 ∧ invalidTokenResp.status = 401 ∧
    runProtected decode secret now handler none = unauthorizedResp ∧
    (∀ a : String, startsWithBearer a = false →
      runProtected decode secret now handler (some a) = unauthorizedResp) ∧
    (∀ a : String, startsWithBearer a = true →
      jwtVerify decode secret now (headerToken a) = none →
      runProtected decode secret now handler (some a) = invalidTokenResp) ∧
    (∀ (a : String) (c : Claims), startsWithBearer a = true →
      jwtVerify decode secret now (headerToken a) = some c →
      runProtected decode secret now handler (some a) = handler c) := by
  refine ⟨rfl, rfl, rfl, ?_, ?_, ?_⟩
  · intro a h
    simp [runProtected, authMiddleware, h]
  · intro a h hv
    simp [runProtected, authMiddleware, h, hv]
  · intro a c h hv
    simp [runProtected, authMiddleware, h, hv]

/-- C6 witness: a malformed header, a bad token and a valid token behave as
stated at concrete inputs. -/
theorem auth_gate_spec_witness :
    runProtected decodeW "sec" 0 (fun _ => { status := 200, message := "ok" })
      (some "Token tok") = unauthorizedResp ∧
    runProtected decodeW "sec" 0 (fun _ => { status := 200, message := "ok" })
      (some "Bearer bad") = invalidTokenResp ∧
    runProtected decodeW "sec" 0 (fun c => { status := 200, message := c.email })
      (some "Bearer tok") = { status := 200, message := "alice@x.com" } :=
  ⟨(auth_gate_spec decodeW "sec" 0 _).2.2.2.1 "Token tok" (by decide),
   (auth_gate_spec decodeW "sec" 0 _).2.2.2.2.1 "Bearer bad" (by decide) (by decide),
   (auth_gate_spec decodeW "sec" 0 _).2.2.2.2.2 "Bearer tok" claimsW (by decide) (by decide)⟩

/-- C3 counterexample: with q = "a_c" (present, and a legal query value)
the listing returns the row named "abc", whose name does not contain
"a_c" as a case-insensitive substring and whose description is NULL: the
underscore is a LIKE wildcard, so the generated condition is weaker than
substring containment. -/
theorem products_filter_substring_counterexample :
    pAbc ∈ listProducts [pAbc] none none (some "a_c") none ∧
    present (some "a_c") = true ∧
    containsCI "a_c" pAbc.name = false ∧
    pAbc.description = none := by
  refine ⟨mem_listProducts.mpr ⟨by simp, by decide⟩, by decide, by decide, rfl⟩

/-- C3 (amended): provided q contains no LIKE wildcard (no percent sign, no
underscore), the listing returns exactly the table rows satisfying the
conjunction of the present filters: exact category match, exact age_group
match, and ASCII-case-insensitive substring containment of q in the name or
in a non-NULL description; absent filters impose no condition. -/
theorem products_filter_conjunction (db : List ProductRow)
    (category age_group q sort : Option String) (r : ProductRow)
    (hq : noWildS (q.getD "") = true) :
    r ∈ listProducts db category age_group q sort ↔
      r ∈ db ∧
      (present category = true → r.category = category) ∧
      (present age_group = true → r.age_group = age_group) ∧
      (present q = true →
        (containsCI (q.getD "") r.name = true ∨
          ∃ d, r.description = some d ∧ containsCI (q.getD "") d = true)) := by
  rw [mem_listProducts]
  refine and_congr_right fun _ => ?_
  cases hd : r.description with
  | none =>
    cases hc : present category <;> cases ha : present age_group <;>
      cases hqp : present q <;>
        simp [rowMatches, hc, ha, hqp, hd, likeMatch_wrap_iff _ _ hq, and_assoc]
  | some d =>
    cases hc : present category <;> cases ha : present age_group <;>
      cases hqp : present q <;>
        simp [rowMatches, hc, ha, hqp, hd, likeMatch_wrap_iff _ _ hq, and_assoc]

/-- C3 witness: the amended equivalence at q = "hood" over the seeded
two-row table. -/
theorem products_filter_conjunction_witness :
    noWildS "hood" = true ∧
    (pHood ∈ listProducts dbW none none (some "hood") none ↔
      pHood ∈ dbW ∧
      (present (none : Option String) = true → pHood.category = none) ∧
      (present (none : Option String) = true → pHood.age_group = none) ∧
      (present (some "hood") = true →
        (containsCI "hood" pHood.name = true ∨
          ∃ d, pHood.description = some d ∧ containsCI "hood" d = true))) :=
  ⟨by decide, products_filter_conjunction dbW none none (some "hood") none pHood (by decide)⟩

theorem sortLE_trans (sort : Option String) (a b c : ProductRow)
    (h1 : sortLE sort a b = true) (h2 : sortLE sort b c = true) :
    sortLE sort a c = true := by
  unfold sortLE at h1 h2 ⊢
  revert h1 h2
  cases sortKeyOf sort <;> simp only [decide_eq_true_eq] <;> intro h1 h2 <;>
    first
      | exact le_trans h1 h2
      | exact le_trans h2 h1

theorem sortLE_total (sort : Option String) (a b : ProductRow) :
    (sortLE sort a b || sortLE sort b a) = true := by
  unfold sortLE
  cases sortKeyOf sort <;> simp only [Bool.or_eq_true, decide_eq_true_eq] <;>
    exact le_total _ _

theorem listProducts_pairwise (db : List ProductRow)
    (category age_group q sort : Option String) :
    (listProducts db category age_group q sort).Pairwise
      (fun a b => sortLE sort a b = true) := by
  unfold listProducts
  exact List.sorted_mergeSort (sortLE_trans sort) (sortLE_total sort) _

/-- C4: price_asc sorts prices non-decreasingly, price_desc non-increasingly,
newest orders by creation time descending, and any absent or unrecognized
sort value silently yields the default descending-by-id order (the very
same listing as with no sort), with no error outcome. -/
theorem products_sort_spec (db : List ProductRow)
    (category age_group q sort : Option String) :
    (sort = some "price_asc" →
      (listProducts db category age_group q sort).Pairwise
        (fun a b => a.price ≤ b.price)) ∧
    (sort = some "price_desc" →
      (listProducts db category age_group q sort).Pairwise
        (fun a b => b.price ≤ a.price)) ∧
    (sort = some "newest" →
      (listProducts db category age_group q sort).Pairwise
        (fun a b => b.created_at ≤ a.created_at)) ∧
    ((∀ s, sort = some s → s ≠ "price_asc" ∧ s ≠ "price_desc" ∧ s ≠ "newest") →
      listProducts db category age_group q sort =
        listProducts db category age_group q none ∧
      (listProducts db category age_group q sort).Pairwise
        (fun a b => b.id ≤ a.id)) := by
  refine ⟨?_, ?_, ?_, ?_⟩
  · rintro rfl
    refine (listProducts_pairwise db category age_group q _).imp ?_
    intro a b hab
    unfold sortLE at hab
    rw [show sortKeyOf (some "price_asc") = SortKey.priceAsc from rfl] at hab
    simpa using hab
  · rintro rfl
    refine (listProducts_pairwise db category age_group q _).imp ?_
    intro a b hab
    unfold sortLE at hab
    rw [show sortKeyOf (some "price_desc") = SortKey.priceDesc from rfl] at hab
    simpa using hab
  · rintro rfl
    refine (listProducts_pairwise db category age_group q _).imp ?_
    intro a b hab
    unfold sortLE at hab
    rw [show sortKeyOf (some "newest") = SortKey.newest from rfl] at hab
    simpa using hab
  · intro hns
    have hk : sortKeyOf sort = SortKey.byIdDesc := by
      cases sort with
      | none => rfl
      | some s =>
        obtain ⟨n1, n2, n3⟩ := hns s rfl
        simp [sortKeyOf, n1, n2, n3]
    have hle : sortLE sort = sortLE none := by
      funext a b
      unfold sortLE
      rw [hk]
      rfl
    constructor
    · unfold listProducts
      rw [hle]
    · refine (listProducts_pairwise db category age_group q sort).imp ?_
      intro a b hab
      unfold sortLE at hab
      rw [hk] at hab
      simpa using hab

/-- C4 witness: concrete sorted output facts and silent fallback for an
unrecognized sort value over the seeded table. -/
theorem products_sort_spec_witness :
    (listProducts dbW none none none (some "price_asc")).Pairwise
      (fun a b => a.price ≤ b.price) ∧
    listProducts dbW none none none (some "shiny") =
      listProducts dbW none none none none :=
  ⟨(products_sort_spec dbW none none none (some "price_asc")).1 rfl,
   ((products_sort_spec dbW none none none (some "shiny")).2.2.2 (fun s hs => by
      cases hs
      exact ⟨by decide, by decide, by decide⟩)).1⟩

/-- Inversion of a successful registration: the guards passed, the email was
free, the signed token carries admin flag 0 and the inserted row takes the
is_admin column default 0. -/
theorem register_ok_inv (secret : String) (now : Int) (st : DBState) (b : RegisterBody)
    (tok : SignedToken) (st1 : DBState)
    (h : register secret now st b = (.ok tok, st1)) :
    present b.email = true ∧ present b.password = true ∧
    findUserByEmail st.users b.email = none ∧
    tok = jwtSign { id := st.nextUserId, email := b.email.getD "", is_admin := 0 } secret now ∧
    st1 = { st with
      users := st.users ++
        [{ id := st.nextUserId, name := b.name.getD "",
           email := b.email.getD "", password := bcryptHash (b.password.getD ""),
           is_admin := 0 }],
      nextUserId := st.nextUserId + 1 } := by
  unfold register at h
  split at h
  · simp at h
  · rename_i hguard
    split at h
    · simp at h
    · rename_i u hfound
      rw [Prod.mk.injEq] at h
      obtain ⟨htok, hst⟩ := h
      simp only [Bool.or_eq_true, Bool.not_eq_true', not_or, Bool.not_eq_false] at hguard
      exact ⟨hguard.1, hguard.2, hfound, (AuthResp.ok.inj htok).symm, hst.symm⟩

/-- C9: whatever the request body contains, a successful registration
creates a row with the admin flag unset and issues a token whose claims
carry admin flag 0. -/
theorem register_never_admin (secret : String) (now : Int) (st : DBState)
    (b : RegisterBody) (tok : SignedToken) (st1 : DBState)
    (h : register secret now st b = (.ok tok, st1)) :
    tok.payload.is_admin = 0 ∧
    st1.users = st.users ++
      [{ id := st.nextUserId, name := b.name.getD "", email := b.email.getD "",
         password := bcryptHash (b.password.getD ""), is_admin := 0 }] := by
  obtain ⟨-, -, -, htok, hst⟩ := register_ok_inv secret now st b tok st1 h
  subst htok
  subst hst
  exact ⟨rfl, rfl⟩

/-- C9 witness: a registration body that even asks for admin still yields a
non-admin row and non-admin token claims. -/
theorem register_never_admin_witness :
    tokBob.payload.is_admin = 0 ∧
    stBob.users = stEmpty.users ++
      [{ id := stEmpty.nextUserId, name := bodyBob.name.getD "",
         email := bodyBob.email.getD "",
         password := bcryptHash (bodyBob.password.getD ""), is_admin := 0 }] :=
  register_never_admin "sec" 0 stEmpty bodyBob tokBob stBob rfl

/-- C5: after a successful registration, a second well-formed registration
request with the same email fails with 400 Email already registered, leaves
the state untouched with exactly one row for that email, and issues no
token. -/
theorem register_duplicate_email_conflict (secret : String) (now : Int)
    (st : DBState) (b1 b2 : RegisterBody) (e : String)
    (h1 : b1.email = some e) (h2 : b2.email = some e)
    (tok : SignedToken) (st1 : DBState)
    (hreg : register secret now st b1 = (.ok tok, st1))
    (hpw : present b2.password = true) :
    register secret now st1 b2 = (.err 400 "Email already registered", st1) ∧
    (st1.users.filter (fun u => u.email == e)).length = 1 ∧
    issuedToken (register secret now st1 b2).1 = none := by
  obtain ⟨hpe1, -, hfound, -, hst⟩ := register_ok_inv secret now st b1 tok st1 hreg
  rw [h1] at hpe1 hfound
  have hfind0 : st.users.find? (fun u => u.email == e) = none := hfound
  have husers : st1.users = st.users ++
      [{ id := st.nextUserId, name := b1.name.getD "", email := e,
         password := bcryptHash (b1.password.getD ""), is_admin := 0 }] := by
    rw [hst, h1]
    simp
  have hfilter0 : st.users.filter (fun u => u.email == e) = [] := by
    rw [List.filter_eq_nil_iff]
    intro u hu
    simpa using List.find?_eq_none.mp hfind0 u hu
  have hpe2 : present b2.email = true := by
    rw [h2]
    exact hpe1
  have hfindrow : findUserByEmail st1.users b2.email =
      some { id := st.nextUserId, name := b1.name.getD "", email := e,
             password := bcryptHash (b1.password.getD ""), is_admin := 0 } := by
    rw [h2]
    show st1.users.find? (fun u => u.email == e) = _
    rw [husers, List.find?_append, hfind0, Option.none_or]
    rw [List.find?_cons_of_pos _ (by simp)]
  have hmain : register secret now st1 b2 = (.err 400 "Email already registered", st1) := by
    unfold register
    rw [hfindrow]
    simp [hpe2, hpw]
  refine ⟨hmain, ?_, by rw [hmain]; rfl⟩
  rw [husers, List.filter_append, hfilter0]
  simp

/-- C5 witness: registering the same email twice at concrete states. -/
theorem register_duplicate_email_conflict_witness :
    register "sec" 0 stBob bodyBob2 = (.err 400 "Email already registered", stBob) ∧
    (stBob.users.filter (fun u => u.email == "bob@x.com")).length = 1 ∧
    issuedToken (register "sec" 0 stBob bodyBob2).1 = none :=
  register_duplicate_email_conflict "sec" 0 stEmpty bodyBob bodyBob2 "bob@x.com"
    rfl rfl tokBob stBob rfl (by decide)

/-- C7 counterexample: a login request for a registered email with the
password field missing makes bcrypt.compare reject, which the handler
catch-all maps to 500 Server error, not to 400; no token is issued, but the
response contradicts the claimed 400. -/
theorem login_missing_password_counterexample :
    login "sec" 0 stAlice { email := some "alice@x.com", password := none } =
      .err 500 "Server error" ∧
    (500 : Nat) ≠ 400 := by
  exact ⟨rfl, by decide⟩

/-- C7 (amended): an unknown email yields 400 with no token; a present but
wrong password yields 400 with no token; a missing password for a known
email yields 500 Server error (bcrypt rejects the missing argument) with no
token; and a token is issued exactly when the email matches a stored user
and a present password matches that user's stored hash. -/
theorem login_spec_amended (secret : String) (now : Int) (st : DBState) (b : LoginBody) :
    (findUserByEmail st.users b.email = none →
      login secret now st b = .err 400 "Invalid email/password") ∧
    (∀ u pw, findUserByEmail st.users b.email = some u → b.password = some pw →
      bcryptCompare pw u.password = false →
      login secret now st b = .err 400 "Invalid email/password") ∧
    (∀ u, findUserByEmail st.users b.email = some u → b.password = none →
      login secret now st b = .err 500 "Server error") ∧
    (∀ tok, login secret now st b = .ok tok ↔
      ∃ u pw, findUserByEmail st.users b.email = some u ∧ b.password = some pw ∧
        bcryptCompare pw u.password = true ∧
        tok = jwtSign { id := u.id, email := u.email, is_admin := u.is_admin } secret now) := by
  refine ⟨?_, ?_, ?_, ?_⟩
  · intro h
    simp [login, h]
  · intro u pw hu hpw hcmp
    simp [login, hu, hpw, bcryptCompareJS, hcmp]
  · intro u hu hpw
    simp [login, hu, hpw, bcryptCompareJS]
  · intro tok
    constructor
    · intro h
      unfold login at h
      split at h
      · simp at h
      · rename_i u hu
        cases hpw : b.password with
        | none =>
          rw [hpw] at h
          simp [bcryptCompareJS] at h
        | some pw =>
          rw [hpw] at h
          simp only [bcryptCompareJS] at h
          by_cases hcmp : bcryptCompare pw u.password = true
          · rw [if_pos hcmp] at h
            exact ⟨u, pw, hu, rfl, hcmp, (AuthResp.ok.inj h).symm⟩
          · rw [if_neg hcmp] at h
            simp at h
    · rintro ⟨u, pw, hu, hpw, hcmp, rfl⟩
      simp [login, hu, hpw, bcryptCompareJS, hcmp]

/-- C7 witness: a wrong present password at a concrete state is rejected
400. -/
theorem login_spec_amended_witness :
    login "sec" 0 stAlice { email := some "alice@x.com", password := some "wrong" } =
      .err 400 "Invalid email/password" :=
  (login_spec_amended "sec" 0 stAlice
      { email := some "alice@x.com", password := some "wrong" }).2.1
    aliceRow "wrong" rfl rfl (by decide)

/-- One insert-or-ignore leaves exactly one row for the pair, given the
uniqueness invariant (at most one row beforehand). -/
theorem insertOrIgnore_count (s : DBState) (uid pid : Nat)
    (h : (s.wishlists.filter
        (fun w => w.user_id == uid && w.product_id == some pid)).length ≤ 1) :
    ((insertOrIgnoreWish s uid (some pid)).wishlists.filter
        (fun w => w.user_id == uid && w.product_id == some pid)).length = 1 := by
  simp only [insertOrIgnoreWish]
  by_cases h1 : s.wishlists.any
      (fun w => w.user_id == uid && w.product_id == some pid) = true
  · rw [if_pos h1]
    obtain ⟨w, hw, hpw⟩ := List.any_eq_true.mp h1
    have hmem : w ∈ s.wishlists.filter
        (fun w => w.user_id == uid && w.product_id == some pid) :=
      List.mem_filter.mpr ⟨hw, hpw⟩
    have hpos := List.length_pos_of_mem hmem
    omega
  · rw [if_neg h1]
    have h1f : s.wishlists.any
        (fun w => w.user_id == uid && w.product_id == some pid) = false :=
      Bool.eq_false_iff.mpr h1
    have hfilter0 : s.wishlists.filter
        (fun w => w.user_id == uid && w.product_id == some pid) = [] := by
      rw [List.filter_eq_nil_iff]
      intro w hw
      simpa using List.any_eq_false.mp h1f w hw
    show ((s.wishlists ++
        [({ id := s.nextWishId, user_id := uid, product_id := some pid } : WishRow)]).filter
      (fun w => w.user_id == uid && w.product_id == some pid)).length = 1
    rw [List.filter_append, hfilter0]
    simp

/-- C8: adding the same (user, product) pair twice answers success both
times and leaves exactly one stored entry for the pair, the uniqueness
constraint (at most one existing row) being the table invariant. -/
theorem wishlist_add_idempotent (st : DBState) (c : Claims) (pid : Nat) (b : WishAddBody)
    (hb : b.product_id = some pid)
    (hinv : (st.wishlists.filter
        (fun w => w.user_id == c.id && w.product_id == some pid)).length ≤ 1) :
    (addWishlist st c b).1.success = true ∧
    (addWishlist (addWishlist st c b).2 c b).1.success = true ∧
    ((addWishlist (addWishlist st c b).2 c b).2.wishlists.filter
        (fun w => w.user_id == c.id && w.product_id == some pid)).length = 1 := by
  refine ⟨rfl, rfl, ?_⟩
  have step1 := insertOrIgnore_count st c.id pid hinv
  have step2 := insertOrIgnore_count (insertOrIgnoreWish st c.id (some pid)) c.id pid
    (le_of_eq step1)
  simpa [addWishlist, hb] using step2

/-- C8 witness: adding product 2 twice for the concrete user leaves one
entry and both requests succeed. -/
theorem wishlist_add_idempotent_witness :
    (addWishlist stAlice claimsW { product_id := some 2, user_id := none }).1.success = true ∧
    (addWishlist (addWishlist stAlice claimsW { product_id := some 2, user_id := none }).2
        claimsW { product_id := some 2, user_id := none }).1.success = true ∧
    ((addWishlist (addWishlist stAlice claimsW { product_id := some 2, user_id := none }).2
        claimsW { product_id := some 2, user_id := none }).2.wishlists.filter
      (fun w => w.user_id == claimsW.id && w.product_id == some 2)).length = 1 :=
  wishlist_add_idempotent stAlice claimsW 2 { product_id := some 2, user_id := none }
    rfl (by decide)

/-- C10: every wishlist operation keys on the verified claims id only: add
and remove leave the entries of every other user (and the users and
products tables) unchanged, and the listing reads nothing beyond the
caller's own entries and the products table. -/
theorem wishlist_user_isolation (st st' : DBState) (c : Claims) (other : Nat)
    (hne : other ≠ c.id) :
    (∀ b : WishAddBody,
      (addWishlist st c b).2.wishlists.filter (fun w => w.user_id == other) =
        st.wishlists.filter (fun w => w.user_id == other) ∧
      (addWishlist st c b).2.users = st.users ∧
      (addWishlist st c b).2.products = st.products) ∧
    (∀ pid : Nat,
      (removeWishlist st c pid).2.wishlists.filter (fun w => w.user_id == other) =
        st.wishlists.filter (fun w => w.user_id == other) ∧
      (removeWishlist st c pid).2.users = st.users ∧
      (removeWishlist st c pid).2.products = st.products) ∧
    (st'.products = st.products →
      st'.wishlists.filter (fun w => w.user_id == c.id) =
        st.wishlists.filter (fun w => w.user_id == c.id) →
      listWishlist st' c = listWishlist st c) := by
  have hcother : (c.id == other) = false := by
    simp only [beq_eq_false_iff_ne, ne_eq]
    exact Ne.symm hne
  refine ⟨?_, ?_, ?_⟩
  · intro b
    show (insertOrIgnoreWish st c.id b.product_id).wishlists.filter
          (fun w => w.user_id == other) =
        st.wishlists.filter (fun w => w.user_id == other) ∧
      (insertOrIgnoreWish st c.id b.product_id).users = st.users ∧
      (insertOrIgnoreWish st c.id b.product_id).products = st.products
    cases hbp : b.product_id with
    | none =>
      refine ⟨?_, rfl, rfl⟩
      show ((st.wishlists ++
          [({ id := st.nextWishId, user_id := c.id, product_id := none } : WishRow)]).filter
        (fun w => w.user_id == other)) = _
      rw [List.filter_append]
      simp [hcother]
    | some p =>
      simp only [insertOrIgnoreWish]
      by_cases h1 : st.wishlists.any
          (fun w => w.user_id == c.id && w.product_id == some p) = true
      · rw [if_pos h1]
        exact ⟨rfl, rfl, rfl⟩
      · rw [if_neg h1]
        refine ⟨?_, rfl, rfl⟩
        show ((st.wishlists ++
            [({ id := st.nextWishId, user_id := c.id, product_id := some p } : WishRow)]).filter
          (fun w => w.user_id == other)) = _
        rw [List.filter_append]
        simp [hcother]
  · intro pid
    refine ⟨?_, rfl, rfl⟩
    show ((st.wishlists.filter
        (fun w => !(w.user_id == c.id && w.product_id == some pid))).filter
      (fun w => w.user_id == other)) = _
    rw [List.filter_filter]
    apply List.filter_congr
    intro w hw
    by_cases hwo : (w.user_id == other) = true
    · have hwid : w.user_id = other := by simpa using hwo
      have : (w.user_id == c.id) = false := by
        simp only [beq_eq_false_iff_ne, ne_eq, hwid]
        exact hne
      simp [hwo, this]
    · have hwo' : (w.user_id == other) = false := Bool.eq_false_iff.mpr hwo
      simp [hwo']
  · intro hp hw
    unfold listWishlist
    rw [hw]
    simp only [hp]

/-- C10 witness: an add by the concrete caller leaves the entries of user 2
(and the other tables) unchanged. -/
theorem wishlist_user_isolation_witness :
    (addWishlist stAlice claimsW { product_id := some 2, user_id := some 99 }).2.wishlists.filter
        (fun w => w.user_id == 2) =
      stAlice.wishlists.filter (fun w => w.user_id == 2) ∧
    (addWishlist stAlice claimsW { product_id := some 2, user_id := some 99 }).2.users =
      stAlice.users ∧
    (addWishlist stAlice claimsW { product_id := some 2, user_id := some 99 }).2.products =
      stAlice.products :=
  (wishlist_user_isolation stAlice stAlice claimsW 2 (by decide)).1
    { product_id := some 2, user_id := some 99 }
